import Mathlib

/-!
Shallow embedding of the request-routing subsystem of GlyphMind AI
(`src/router/request_router.py`): the rate limiter, the priority queue,
rule matching, retrying execution, and the statistics aggregator.

Python `datetime` timestamps are embedded as integers (seconds);
`timedelta(minutes=w)` becomes `60 * w`.  Latencies (`time.time()`
differences) are embedded as rationals.  A handler (an async callable)
is embedded as a function from the zero-based invocation index to the
outcome of that invocation: success with a value, an `asyncio.TimeoutError`
from `asyncio.wait_for`, or an exception raised by the handler itself
(exceptions are identified by a numeric code).  `asyncio.sleep` calls are
recorded as a trace of slept durations.
-/

namespace GlyphMind

/-- `class RequestType(Enum)` in the source. -/
inductive RequestType
  | chat
  | search
  | knowledge
  | status
  | admin
deriving DecidableEq, Repr

/-- The `.value` string of a `RequestType` member. -/
def RequestType.value : RequestType → String
  | .chat => "chat"
  | .search => "search"
  | .knowledge => "knowledge"
  | .status => "status"
  | .admin => "admin"

/-- `class Priority(Enum)` in the source: LOW=1, NORMAL=2, HIGH=3, CRITICAL=4. -/
inductive Priority
  | low
  | normal
  | high
  | critical
deriving DecidableEq, Repr

/-- The numeric `.value` of a `Priority` member. -/
def Priority.value : Priority → Int
  | .low => 1
  | .normal => 2
  | .high => 3
  | .critical => 4

/-- The Python enum constructor `Priority(n)`: `some` member for a valid
value, `none` when `Priority(n)` would raise `ValueError`. -/
def Priority.ofValue? : Int → Option Priority
  | 1 => some .low
  | 2 => some .normal
  | 3 => some .high
  | 4 => some .critical
  | _ => none

/-- `@dataclass RequestContext` (the fields the routed code paths read:
`request_id`, `request_type`, `priority`, `user_id`). -/
structure RequestContext where
  request_id : String
  request_type : RequestType
  priority : Priority
  user_id : Option String
deriving DecidableEq, Repr

/-- Outcome of one invocation of a handler under `asyncio.wait_for`:
it returns a value, the wait times out, or the handler raises. -/
inductive HandlerOutcome (A : Type)
  | ok (a : A)
  | timeout
  | raises (e : Nat)
deriving DecidableEq, Repr

/-- `true` when the invocation did not return a value. -/
def HandlerOutcome.isFail {A : Type} : HandlerOutcome A → Bool
  | .ok _ => false
  | .timeout => true
  | .raises _ => true

/-- The exceptions that can propagate out of `route_request`, one
constructor per `raise` site / propagated exception class. -/
inductive RouterError
  | noRouteFound (rt : RequestType)       -- ValueError "No route found ..."
  | invalidPriorityValue                  -- ValueError from Priority(...)
  | rateLimitExceeded (remaining : Nat)   -- Exception "Rate limit exceeded ..."
  | handlerNotFound (name : String)       -- ValueError "Handler not found ..."
  | handlerTimeout                        -- asyncio.TimeoutError re-raised
  | handlerRaised (e : Nat)               -- the handler's own exception re-raised
  | allRetriesFailed                      -- Exception "All retry attempts failed"
deriving DecidableEq, Repr

/-- The exception recorded as `last_exception` for a failed invocation.
(Unused for a successful invocation.) -/
def HandlerOutcome.asError {A : Type} : HandlerOutcome A → RouterError
  | .ok _ => .allRetriesFailed
  | .timeout => .handlerTimeout
  | .raises e => .handlerRaised e

/-- `@dataclass RouteRule`.  `condition` returns `.error ()` when the
predicate raises. -/
structure RouteRule (A : Type) where
  name : String
  condition : RequestContext → Except Unit Bool
  handler : String
  priorityBoost : Int := 0
  rateLimit : Option Nat := none
  timeoutSeconds : Nat := 30
  retryAttempts : Nat := 3

/-! ### RateLimiter -/

/-- Lookup in the embedded `Dict[str, List[datetime]]` (association list). -/
def lookupKey : List (String × List Int) → String → Option (List Int)
  | [], _ => none
  | (k, v) :: rest, key => if k = key then some v else lookupKey rest key

/-- Store a key's timestamp list, replacing any existing entry. -/
def setKey : List (String × List Int) → String → List Int → List (String × List Int)
  | [], key, v => [(key, v)]
  | (k, w) :: rest, key, v =>
      if k = key then (key, v) :: rest else (k, w) :: setKey rest key v

/-- `class RateLimiter`: `self.requests : Dict[str, List[datetime]]`. -/
structure RateLimiter where
  requests : List (String × List Int)
deriving DecidableEq, Repr

/-- `RateLimiter.is_allowed(key, limit, window_minutes)` at time `now`:
purge timestamps `<= now - window`, reject when `limit` or more remain,
otherwise record `now` and admit.  Returns the decision and the updated
limiter state. -/
def RateLimiter.is_allowed (rl : RateLimiter) (key : String) (limit : Nat)
    (window_minutes : Nat) (now : Int) : Bool × RateLimiter :=
  let window_start := now - 60 * (window_minutes : Int)
  -- Clean old requests (a missing key is initialised to the empty list)
  let cleaned := ((lookupKey rl.requests key).getD []).filter
    (fun req_time => window_start < req_time)
  -- Check limit
  if limit ≤ cleaned.length then
    (false, ⟨setKey rl.requests key cleaned⟩)
  else
    -- Add current request
    (true, ⟨setKey rl.requests key (cleaned ++ [now])⟩)

/-- `RateLimiter.get_remaining(key, limit, window_minutes)` at time `now`:
`max(0, limit - len(recent))` over the in-window timestamps, `limit` when
the key is absent.  (Nat subtraction truncates at 0, matching `max(0, ·)`.) -/
def RateLimiter.get_remaining (rl : RateLimiter) (key : String) (limit : Nat)
    (window_minutes : Nat) (now : Int) : Nat :=
  let window_start := now - 60 * (window_minutes : Int)
  match lookupKey rl.requests key with
  | none => limit
  | some ts => limit - (ts.filter (fun req_time => window_start < req_time)).length

/-! ### RequestQueue -/

/-- `class RequestQueue`: one `asyncio.Queue(maxsize=max_size // 4)` per
priority level, holding `(context, handler)` pairs.  The front of each
list is the oldest element (FIFO). -/
structure RequestQueue (H : Type) where
  max_size : Nat
  queues : Priority → List (RequestContext × H)

/-- A fresh `RequestQueue(max_size)`: four empty queues. -/
def RequestQueue.init (H : Type) (max_size : Nat) : RequestQueue H :=
  ⟨max_size, fun _ => []⟩

/-- Outcome of `await queue.put(item)` on an `asyncio.Queue`: either the
item is enqueued and `put` returns `True`, or the queue is full and the
coroutine suspends until a slot frees (`asyncio.QueueFull` is raised only
by `put_nowait`, never by `put`, so the source's `except asyncio.QueueFull`
branch cannot run and `put` never returns `False`). -/
inductive PutResult (H : Type)
  | ok (q : RequestQueue H)          -- `return True` after enqueuing
  | blocked                          -- `await queue.put` suspends: queue full
  | returnedFalse                    -- the `except QueueFull: return False` branch

/-- An `asyncio.Queue` is full when `maxsize` is positive and `qsize()`
has reached it; `maxsize = 0` means unbounded. -/
def RequestQueue.levelFull {H : Type} (q : RequestQueue H) (p : Priority) : Bool :=
  0 < q.max_size / 4 ∧ q.max_size / 4 ≤ (q.queues p).length

/-- `RequestQueue.put(context, handler)`: select the queue for
`context.priority` and `await queue.put((context, handler))`. -/
def RequestQueue.put {H : Type} (q : RequestQueue H) (context : RequestContext)
    (handler : H) : PutResult H :=
  if q.levelFull context.priority then .blocked
  else .ok ⟨q.max_size, fun p =>
    if p = context.priority then q.queues p ++ [(context, handler)] else q.queues p⟩

/-- Remove the front element of one priority level. -/
def RequestQueue.popLevel {H : Type} (q : RequestQueue H) (p : Priority) :
    RequestQueue H :=
  ⟨q.max_size, fun p' => if p' = p then (q.queues p').tail else q.queues p'⟩

/-- `RequestQueue.get()`: check the queues in the order CRITICAL, HIGH,
NORMAL, LOW; dequeue the front of the first non-empty one; `None` when all
are empty.  (With a single consumer, `asyncio.wait_for(queue.get(), 0.1)`
on a non-empty queue returns its front element immediately.) -/
def RequestQueue.get {H : Type} (q : RequestQueue H) :
    Option ((RequestContext × H) × RequestQueue H) :=
  match q.queues .critical with
  | item :: _ => some (item, q.popLevel .critical)
  | [] =>
    match q.queues .high with
    | item :: _ => some (item, q.popLevel .high)
    | [] =>
      match q.queues .normal with
      | item :: _ => some (item, q.popLevel .normal)
      | [] =>
        match q.queues .low with
        | item :: _ => some (item, q.popLevel .low)
        | [] => none

/-! ### Statistics -/

/-- `@dataclass RequestStats` (the per-type and per-priority dicts are
embedded as total count functions; `dict.get(k, 0)` reads through the
default). -/
structure RequestStats where
  total_requests : Nat
  successful_requests : Nat
  failed_requests : Nat
  average_response_time : ℚ
  requests_by_type : RequestType → Nat
  requests_by_priority : Priority → Nat

/-- A fresh `RequestStats()`. -/
def RequestStats.init : RequestStats :=
  ⟨0, 0, 0, 0, fun _ => 0, fun _ => 0⟩

/-- `RequestRouter._update_response_time_stats(execution_time)`. -/
def update_response_time_stats (stats : RequestStats) (execution_time : ℚ) :
    RequestStats :=
  let total_requests := stats.successful_requests + stats.failed_requests
  if 0 < total_requests then
    { stats with average_response_time :=
        (stats.average_response_time * ((total_requests : ℚ) - 1) + execution_time)
          / (total_requests : ℚ) }
  else stats

/-- The `success_rate` field of `RequestRouter.get_stats()`:
`successful_requests / max(1, total_requests) * 100`. -/
def success_rate (stats : RequestStats) : ℚ :=
  (stats.successful_requests : ℚ) / ((max 1 stats.total_requests : ℕ) : ℚ) * 100

/-! ### Rule matching and retrying execution -/

/-- `RequestRouter._find_matching_route(context)`: first rule whose
condition evaluates to true; a raising condition is logged and skipped. -/
def find_matching_route {A : Type} (routes : List (RouteRule A))
    (context : RequestContext) : Option (RouteRule A) :=
  match routes with
  | [] => none
  | rule :: rest =>
    match rule.condition context with
    | .ok true => some rule
    | .ok false => find_matching_route rest context
    | .error _ => find_matching_route rest context

/-- A run of `_execute_with_retries`: its result, the durations passed to
`asyncio.sleep` between attempts (in order), and the number of handler
invocations made. -/
structure RetryTrace (A : Type) where
  result : Except RouterError A
  sleeps : List Nat
  calls : Nat
deriving Repr

/-- The loop body of `_execute_with_retries`, at zero-based attempt index
`attempt`, with `remaining` loop iterations left and `last_exception`
(`none` before the first failure).  On a timeout the backoff is
`2 ^ attempt` seconds, on a handler-raised error it is 1 second, and no
sleep follows the final attempt; after the loop the code runs
`raise last_exception or Exception("All retry attempts failed")`. -/
def execute_with_retries_aux {A : Type} (handler : Nat → HandlerOutcome A)
    (attempt remaining : Nat) (last_exception : Option RouterError) :
    RetryTrace A :=
  match remaining with
  | 0 => ⟨.error (last_exception.getD .allRetriesFailed), [], 0⟩
  | r + 1 =>
    match handler attempt with
    | .ok a => ⟨.ok a, [], 1⟩
    | .timeout =>
      let tail := execute_with_retries_aux handler (attempt + 1) r
        (some .handlerTimeout)
      if r = 0 then ⟨tail.result, tail.sleeps, tail.calls + 1⟩
      else ⟨tail.result, 2 ^ attempt :: tail.sleeps, tail.calls + 1⟩
    | .raises e =>
      let tail := execute_with_retries_aux handler (attempt + 1) r
        (some (.handlerRaised e))
      if r = 0 then ⟨tail.result, tail.sleeps, tail.calls + 1⟩
      else ⟨tail.result, 1 :: tail.sleeps, tail.calls + 1⟩

/-- `RequestRouter._execute_with_retries(handler, context, timeout_seconds,
retry_attempts)`: `for attempt in range(retry_attempts)` over the loop
body above. -/
def execute_with_retries {A : Type} (handler : Nat → HandlerOutcome A)
    (retry_attempts : Nat) : RetryTrace A :=
  execute_with_retries_aux handler 0 retry_attempts none

/-! ### The dispatcher `route_request` -/

/-- The rate-limit key `f"{context.user_id or 'anonymous'}:{context.request_type.value}"`
(Python `or`: `None` and the empty string both fall back to `"anonymous"`). -/
def rateKey (context : RequestContext) : String :=
  (match context.user_id with
   | some u => if u = "" then "anonymous" else u
   | none => "anonymous") ++ ":" ++ context.request_type.value

/-- The try-block of `route_request` after the "seen" statistics update:
rule matching, priority boost, rate limiting, handler resolution and
retried execution.  Returns the result (value or propagated exception),
the updated rate limiter, and the sleep/invocation trace. -/
def route_request_core {A : Type} (routes : List (RouteRule A))
    (handlers : String → Option (Nat → HandlerOutcome A)) (rl : RateLimiter)
    (context : RequestContext)
    (handler_override : Option (Nat → HandlerOutcome A)) (now : Int) :
    Except RouterError A × RateLimiter × List Nat × Nat :=
  match find_matching_route routes context with
  | none => (.error (.noRouteFound context.request_type), rl, [], 0)
  | some matching_rule =>
    -- Apply priority boost (only when the boost is positive)
    let boosted : Option Priority :=
      if 0 < matching_rule.priorityBoost then
        Priority.ofValue? (min 4 (context.priority.value + matching_rule.priorityBoost))
      else some context.priority
    match boosted with
    | none => (.error .invalidPriorityValue, rl, [], 0)
    | some p2 =>
      let context2 : RequestContext := { context with priority := p2 }
      -- Check rate limiting (`if matching_rule.rate_limit:` — None and 0 are falsy)
      let lim := matching_rule.rateLimit.getD 0
      let rateStep : Bool × RateLimiter :=
        if lim ≠ 0 then rl.is_allowed (rateKey context2) lim 1 now
        else (true, rl)
      if rateStep.1 = false then
        (.error (.rateLimitExceeded
          (rateStep.2.get_remaining (rateKey context2) lim 1 now)), rateStep.2, [], 0)
      else
        -- Get handler (`handler_override or self.handlers.get(...)`)
        match handler_override.orElse (fun _ => handlers matching_rule.handler) with
        | none => (.error (.handlerNotFound matching_rule.handler), rateStep.2, [], 0)
        | some handler =>
          let trace := execute_with_retries handler matching_rule.retryAttempts
          (trace.result, rateStep.2, trace.sleeps, trace.calls)

/-- The observable effects of one `route_request` call. -/
structure RouteOutcome (A : Type) where
  result : Except RouterError A
  stats : RequestStats
  limiter : RateLimiter
  sleeps : List Nat
  invocations : Nat

/-- `RequestRouter.route_request(context, handler_override)` at time `now`,
whose measured wall-clock duration is `elapsed`: bump the "seen" counters
(per-priority uses the pre-boost priority), run the core, then increment
exactly one of the success/failure counters and — in the `finally` block —
recompute the running average response time. -/
def route_request {A : Type} (routes : List (RouteRule A))
    (handlers : String → Option (Nat → HandlerOutcome A)) (rl : RateLimiter)
    (stats : RequestStats) (context : RequestContext)
    (handler_override : Option (Nat → HandlerOutcome A)) (now : Int)
    (elapsed : ℚ) : RouteOutcome A :=
  let stats1 : RequestStats :=
    { stats with
      total_requests := stats.total_requests + 1
      requests_by_type := fun t =>
        if t = context.request_type then stats.requests_by_type t + 1
        else stats.requests_by_type t
      requests_by_priority := fun p =>
        if p = context.priority then stats.requests_by_priority p + 1
        else stats.requests_by_priority p }
  let core := route_request_core routes handlers rl context handler_override now
  let stats2 : RequestStats :=
    match core.1 with
    | .ok _ => { stats1 with successful_requests := stats1.successful_requests + 1 }
    | .error _ => { stats1 with failed_requests := stats1.failed_requests + 1 }
  { result := core.1
    stats := update_response_time_stats stats2 elapsed
    limiter := core.2.1
    sleeps := core.2.2.1
    invocations := core.2.2.2 }

/-! ### Helper lemmas -/

theorem lookupKey_setKey_self (l : List (String × List Int)) (key : String)
    (v : List Int) : lookupKey (setKey l key v) key = some v := by
  induction l with
  | nil => simp [setKey, lookupKey]
  | cons hd tl ih =>
    by_cases h : hd.1 = key
    · simp [setKey, h, lookupKey]
    · simp [setKey, h, lookupKey, ih]

theorem filter_idem (p : Int → Bool) (l : List Int) :
    (l.filter p).filter p = l.filter p := by
  induction l with
  | nil => rfl
  | cons hd tl ih =>
    by_cases h : p hd
    · simp [List.filter, h, ih]
    · simp [List.filter, h, ih]

theorem Priority.one_le_value (p : Priority) : 1 ≤ p.value := by
  cases p <;> decide

theorem Priority.ofValue_of_mem (n : Int) (h1 : 1 ≤ n) (h4 : n ≤ 4) :
    ∃ q : Priority, Priority.ofValue? n = some q ∧ q.value = n := by
  have : n = 1 ∨ n = 2 ∨ n = 3 ∨ n = 4 := by omega
  rcases this with rfl | rfl | rfl | rfl
  · exact ⟨.low, rfl, rfl⟩
  · exact ⟨.normal, rfl, rfl⟩
  · exact ⟨.high, rfl, rfl⟩
  · exact ⟨.critical, rfl, rfl⟩

/-! ### Claims -/

/-- C4.  For a positive `priority_boost`, `Priority(min(4, priority.value +
boost))` is a valid member whose value is `min(CRITICAL.value, value + boost)`;
a context already at CRITICAL stays at CRITICAL, so the boosted priority
never exceeds CRITICAL. -/
theorem boost_clamped_at_critical (p : Priority) (boost : Int) (hb : 0 < boost) :
    ∃ q : Priority,
      Priority.ofValue? (min 4 (p.value + boost)) = some q ∧
      q.value = min Priority.critical.value (p.value + boost) ∧
      q.value ≤ Priority.critical.value ∧
      (p = Priority.critical → q = Priority.critical) := by
  have hv := Priority.one_le_value p
  have h1 : 1 ≤ min 4 (p.value + boost) := by omega
  have h4 : min 4 (p.value + boost) ≤ 4 := by omega
  obtain ⟨q, hq, hqv⟩ := Priority.ofValue_of_mem _ h1 h4
  refine ⟨q, hq, ?_, ?_, ?_⟩
  · simpa [Priority.value] using hqv
  · rw [hqv]
    simp [Priority.value]
  · intro hp
    subst hp
    have hmin : min 4 (Priority.critical.value + boost) = 4 := by
      have : Priority.critical.value = 4 := rfl
      omega
    rw [hmin] at hq
    rw [show Priority.ofValue? 4 = some Priority.critical from rfl] at hq
    exact (Option.some_inj.mp hq).symm

/-- Witness for C4 at `p = CRITICAL`, `boost = 2`. -/
theorem boost_clamped_at_critical_witness :
    ∃ q : Priority,
      Priority.ofValue? (min 4 (Priority.critical.value + 2)) = some q ∧
      q.value = min Priority.critical.value (Priority.critical.value + 2) ∧
      q.value ≤ Priority.critical.value ∧
      (Priority.critical = Priority.critical → q = Priority.critical) :=
  boost_clamped_at_critical Priority.critical 2 (by decide)

/-- A context used by concrete instances below. -/
def ctxNormal : RequestContext :=
  { request_id := "r1", request_type := .chat, priority := .normal,
    user_id := some "u1" }

/-- A CRITICAL-priority context. -/
def ctxCritical : RequestContext :=
  { request_id := "r2", request_type := .status, priority := .critical,
    user_id := some "u1" }

/-- A LOW-priority context. -/
def ctxLow : RequestContext :=
  { request_id := "r3", request_type := .chat, priority := .low,
    user_id := some "u2" }

/-- A `RequestQueue(16)` (so 4 slots per level, the claim's example
capacity) whose NORMAL level holds 4 items: that level is at capacity. -/
def fullNormalQueue : RequestQueue Unit :=
  ⟨16, fun p => if p = .normal then List.replicate 4 (ctxNormal, ()) else []⟩

/-- C5.  On a priority level at capacity, `put` suspends on
`await queue.put(...)` (the queue frees no slot within the call), and on
no input does `put` ever take the `except asyncio.QueueFull: return False`
branch, because `asyncio.Queue.put` never raises `QueueFull` (only
`put_nowait` does): contrary to the claim, a full queue blocks the caller
instead of returning `False` immediately. -/
theorem put_full_blocks_never_false :
    RequestQueue.put fullNormalQueue ctxNormal () = PutResult.blocked ∧
    ∀ (q : RequestQueue Unit) (c : RequestContext) (h : Unit),
      RequestQueue.put q c h ≠ PutResult.returnedFalse := by
  constructor
  · have hfull : fullNormalQueue.levelFull ctxNormal.priority = true := rfl
    simp [RequestQueue.put, hfull]
  · intro q c h
    unfold RequestQueue.put
    by_cases hf : q.levelFull c.priority <;> simp [hf]

/-- C6.  `get` dequeues from the first non-empty queue in the order
CRITICAL, HIGH, NORMAL, LOW, returning the front (oldest) item of that
level and leaving the rest of the level intact (FIFO per level); it
returns `None` only when all four queues are empty. -/
theorem get_strict_priority_order {H : Type} (q : RequestQueue H) :
    (∀ item rest, q.queues .critical = item :: rest →
      q.get = some (item, q.popLevel .critical)) ∧
    (q.queues .critical = [] → ∀ item rest, q.queues .high = item :: rest →
      q.get = some (item, q.popLevel .high)) ∧
    (q.queues .critical = [] → q.queues .high = [] →
      ∀ item rest, q.queues .normal = item :: rest →
      q.get = some (item, q.popLevel .normal)) ∧
    (q.queues .critical = [] → q.queues .high = [] → q.queues .normal = [] →
      ∀ item rest, q.queues .low = item :: rest →
      q.get = some (item, q.popLevel .low)) ∧
    (q.queues .critical = [] → q.queues .high = [] → q.queues .normal = [] →
      q.queues .low = [] → q.get = none) := by
  refine ⟨?_, ?_, ?_, ?_, ?_⟩
  · intro item rest h
    simp [RequestQueue.get, h]
  · intro hc item rest h
    simp [RequestQueue.get, hc, h]
  · intro hc hh item rest h
    simp [RequestQueue.get, hc, hh, h]
  · intro hc hh hn item rest h
    simp [RequestQueue.get, hc, hh, hn, h]
  · intro hc hh hn hl
    simp [RequestQueue.get, hc, hh, hn, hl]

/-- A queue holding exactly one LOW item and one CRITICAL item. -/
def lowCriticalQueue : RequestQueue Unit :=
  ⟨1000, fun p =>
    match p with
    | .critical => [(ctxCritical, ())]
    | .low => [(ctxLow, ())]
    | _ => []⟩

/-- Witness for C6: with one item at LOW and one at CRITICAL, `get`
returns the CRITICAL item first. -/
theorem get_strict_priority_order_witness :
    lowCriticalQueue.get
      = some ((ctxCritical, ()), lowCriticalQueue.popLevel .critical) :=
  (get_strict_priority_order lowCriticalQueue).1 (ctxCritical, ()) [] rfl

/-- C9 counterexample.  With 1 success out of 2 total requests, `get_stats`
reports `success_rate = 50` (a percentage), not `1 / 2` as the claim's
equation `success rate = successful / total` would give. -/
theorem success_rate_is_percent_counterexample :
    success_rate ⟨2, 1, 1, 0, fun _ => 0, fun _ => 0⟩ = 50 ∧
    (50 : ℚ) ≠ 1 / 2 := by
  constructor
  · norm_num [success_rate]
  · norm_num

/-- C9 as amended.  `success_rate` is a percentage: when `total_requests`
is positive it equals `successful / total * 100`, and when `total_requests`
is `0` (so `successful_requests` is `0` too, as every update path increments
`total` first) it equals `0`. -/
theorem success_rate_formula (stats : RequestStats) :
    (0 < stats.total_requests →
      success_rate stats
        = (stats.successful_requests : ℚ) / (stats.total_requests : ℚ) * 100) ∧
    (stats.successful_requests ≤ stats.total_requests →
      stats.total_requests = 0 → success_rate stats = 0) := by
  constructor
  · intro h
    unfold success_rate
    rw [max_eq_right h]
  · intro hle h0
    have hs : stats.successful_requests = 0 := by omega
    simp [success_rate, hs]

/-- Witness for C9: a state with 1 success of 2 totals, and the zero state. -/
theorem success_rate_formula_witness :
    success_rate ⟨2, 1, 1, 0, fun _ => 0, fun _ => 0⟩
      = (((1 : Nat) : ℚ) / ((2 : Nat) : ℚ)) * 100 ∧
    success_rate RequestStats.init = 0 :=
  ⟨(success_rate_formula _).1 (by decide),
   (success_rate_formula RequestStats.init).2 (by decide) rfl⟩

/-- C10.  A rejected `is_allowed` call appends no timestamp: afterwards the
stored list for the key is exactly the purged in-window list from before
(so the in-window admission count is unchanged), and `get_remaining` at the
same instant returns the same value as before the rejected call. -/
theorem rejected_call_consumes_no_quota (rl : RateLimiter) (key : String)
    (limit w : Nat) (now : Int) (hlim : 0 < limit)
    (hrej : (rl.is_allowed key limit w now).1 = false) :
    (rl.is_allowed key limit w now).2.get_remaining key limit w now
      = rl.get_remaining key limit w now ∧
    (lookupKey (rl.is_allowed key limit w now).2.requests key).getD []
      = ((lookupKey rl.requests key).getD []).filter
          (fun req_time => now - 60 * (w : Int) < req_time) := by
  rcases hbase : lookupKey rl.requests key with _ | ts
  · exfalso
    simp only [RateLimiter.is_allowed, hbase, Option.getD_none, List.filter_nil,
      List.length_nil] at hrej
    split at hrej
    · omega
    · simp at hrej
  · by_cases hc : limit ≤
      (ts.filter (fun req_time => now - 60 * (w : Int) < req_time)).length
    · constructor
      · simp [RateLimiter.is_allowed, RateLimiter.get_remaining, hbase, hc,
              lookupKey_setKey_self, filter_idem]
      · simp [RateLimiter.is_allowed, hbase, hc, lookupKey_setKey_self]
    · exfalso
      simp [RateLimiter.is_allowed, hbase, hc] at hrej

/-- Witness for C10: key `"u1:chat"` holding two in-window timestamps at
limit 2 rejects a third call and loses no quota. -/
theorem rejected_call_consumes_no_quota_witness :
    ((⟨[("u1:chat", [100, 90])]⟩ : RateLimiter).is_allowed "u1:chat" 2 1 100).2.get_remaining
        "u1:chat" 2 1 100
      = (⟨[("u1:chat", [100, 90])]⟩ : RateLimiter).get_remaining "u1:chat" 2 1 100 ∧
    (lookupKey ((⟨[("u1:chat", [100, 90])]⟩ : RateLimiter).is_allowed
        "u1:chat" 2 1 100).2.requests "u1:chat").getD []
      = ((lookupKey (⟨[("u1:chat", [100, 90])]⟩ : RateLimiter).requests
          "u1:chat").getD []).filter
          (fun req_time => (100 : Int) - 60 * ((1 : Nat) : Int) < req_time) :=
  rejected_call_consumes_no_quota ⟨[("u1:chat", [100, 90])]⟩ "u1:chat" 2 1 100
    (by decide) (by decide)

/-- C3.  With limit 2 and the one-minute window: starting from a state with
no record for key `K`, three calls inside one window admit the first two and
reject the third, `get_remaining` then reports 0, and once the window has
elapsed past the recorded admissions a fourth call is admitted again. -/
theorem rate_limit_two_per_window (rl : RateLimiter) (key : String)
    (t1 t2 t3 t4 : Int) (hk : lookupKey rl.requests key = none)
    (h12 : t1 ≤ t2) (h23 : t2 ≤ t3) (hwin : t3 - 60 < t1)
    (helapsed : t2 ≤ t4 - 60) :
    (rl.is_allowed key 2 1 t1).1 = true ∧
    ((rl.is_allowed key 2 1 t1).2.is_allowed key 2 1 t2).1 = true ∧
    (((rl.is_allowed key 2 1 t1).2.is_allowed key 2 1 t2).2.is_allowed
        key 2 1 t3).1 = false ∧
    ((((rl.is_allowed key 2 1 t1).2.is_allowed key 2 1 t2).2.is_allowed
        key 2 1 t3).2).get_remaining key 2 1 t3 = 0 ∧
    (((((rl.is_allowed key 2 1 t1).2.is_allowed key 2 1 t2).2.is_allowed
        key 2 1 t3).2).is_allowed key 2 1 t4).1 = true := by
  have hw1 : t2 - 60 < t1 := by omega
  have hw2 : t3 - 60 < t1 := by omega
  have hw3 : t3 - 60 < t2 := by omega
  have hw4 : ¬ (t4 - 60 < t1) := by omega
  have hw5 : ¬ (t4 - 60 < t2) := by omega
  have s1 : rl.is_allowed key 2 1 t1
      = (true, ⟨setKey rl.requests key [t1]⟩) := by
    simp [RateLimiter.is_allowed, hk]
  have s2 : (⟨setKey rl.requests key [t1]⟩ : RateLimiter).is_allowed key 2 1 t2
      = (true, ⟨setKey (setKey rl.requests key [t1]) key [t1, t2]⟩) := by
    simp [RateLimiter.is_allowed, lookupKey_setKey_self, hw1]
  have s3 : (⟨setKey (setKey rl.requests key [t1]) key [t1, t2]⟩ :
        RateLimiter).is_allowed key 2 1 t3
      = (false, ⟨setKey (setKey (setKey rl.requests key [t1]) key [t1, t2])
          key [t1, t2]⟩) := by
    simp [RateLimiter.is_allowed, lookupKey_setKey_self, hw2, hw3]
  have s4 : (⟨setKey (setKey (setKey rl.requests key [t1]) key [t1, t2])
        key [t1, t2]⟩ : RateLimiter).get_remaining key 2 1 t3 = 0 := by
    simp [RateLimiter.get_remaining, lookupKey_setKey_self, hw2, hw3]
  have s5 : ((⟨setKey (setKey (setKey rl.requests key [t1]) key [t1, t2])
        key [t1, t2]⟩ : RateLimiter).is_allowed key 2 1 t4).1 = true := by
    simp [RateLimiter.is_allowed, lookupKey_setKey_self, hw4, hw5]
  refine ⟨?_, ?_, ?_, ?_, ?_⟩
  · rw [s1]
  · rw [s1]
    rw [show ((true, (⟨setKey rl.requests key [t1]⟩ : RateLimiter))).2
        = (⟨setKey rl.requests key [t1]⟩ : RateLimiter) from rfl, s2]
  · rw [s1]
    rw [show ((true, (⟨setKey rl.requests key [t1]⟩ : RateLimiter))).2
        = (⟨setKey rl.requests key [t1]⟩ : RateLimiter) from rfl, s2]
    rw [show ((true, (⟨setKey (setKey rl.requests key [t1]) key [t1, t2]⟩ :
        RateLimiter))).2
        = (⟨setKey (setKey rl.requests key [t1]) key [t1, t2]⟩ : RateLimiter)
        from rfl, s3]
  · rw [s1]
    rw [show ((true, (⟨setKey rl.requests key [t1]⟩ : RateLimiter))).2
        = (⟨setKey rl.requests key [t1]⟩ : RateLimiter) from rfl, s2]
    rw [show ((true, (⟨setKey (setKey rl.requests key [t1]) key [t1, t2]⟩ :
        RateLimiter))).2
        = (⟨setKey (setKey rl.requests key [t1]) key [t1, t2]⟩ : RateLimiter)
        from rfl, s3]
    exact s4
  · rw [s1]
    rw [show ((true, (⟨setKey rl.requests key [t1]⟩ : RateLimiter))).2
        = (⟨setKey rl.requests key [t1]⟩ : RateLimiter) from rfl, s2]
    rw [show ((true, (⟨setKey (setKey rl.requests key [t1]) key [t1, t2]⟩ :
        RateLimiter))).2
        = (⟨setKey (setKey rl.requests key [t1]) key [t1, t2]⟩ : RateLimiter)
        from rfl, s3]
    exact s5

theorem execute_aux_ok {A : Type} (handler : Nat → HandlerOutcome A) (v : A) :
    ∀ (k start n : Nat) (last : Option RouterError), k < n →
    (∀ i, i < k → (handler (start + i)).isFail = true) →
    handler (start + k) = .ok v →
    (execute_with_retries_aux handler start n last).result = .ok v := by
  intro k
  induction k with
  | zero =>
    intro start n last hkn _ hok
    obtain ⟨m, rfl⟩ : ∃ m, n = m + 1 := ⟨n - 1, by omega⟩
    rw [show start + 0 = start from rfl] at hok
    simp [execute_with_retries_aux, hok]
  | succ k ih =>
    intro start n last hkn hfail hok
    obtain ⟨m, rfl⟩ : ∃ m, n = m + 1 := ⟨n - 1, by omega⟩
    have hm : m ≠ 0 := by omega
    have hf0 : (handler start).isFail = true := by
      have := hfail 0 (by omega)
      rwa [show start + 0 = start from rfl] at this
    have htail : (execute_with_retries_aux handler (start + 1) m
        (some ((handler start).asError))).result = .ok v := by
      refine ih (start + 1) m (some ((handler start).asError)) (by omega)
        (fun i hi => ?_) ?_
      · have := hfail (i + 1) (by omega)
        rwa [show start + (i + 1) = start + 1 + i from by omega] at this
      · rwa [show start + (k + 1) = start + 1 + k from by omega] at hok
    cases hh : handler start with
    | ok a =>
      rw [hh] at hf0
      simp [HandlerOutcome.isFail] at hf0
    | timeout =>
      rw [hh] at htail
      simp [execute_with_retries_aux, hh, hm, HandlerOutcome.asError] at htail ⊢
      exact htail
    | raises e =>
      rw [hh] at htail
      simp [execute_with_retries_aux, hh, hm, HandlerOutcome.asError] at htail ⊢
      exact htail

theorem execute_aux_exhaust {A : Type} (handler : Nat → HandlerOutcome A) :
    ∀ (n start : Nat) (last : Option RouterError), 0 < n →
    (∀ i, i < n → (handler (start + i)).isFail = true) →
    (execute_with_retries_aux handler start n last).result
      = .error ((handler (start + (n - 1))).asError) := by
  intro n
  induction n with
  | zero => intro start last h _; omega
  | succ m ih =>
    intro start last _ hfail
    have hf0 : (handler start).isFail = true := by
      have := hfail 0 (by omega)
      rwa [show start + 0 = start from rfl] at this
    by_cases hm : m = 0
    · subst hm
      cases hh : handler start with
      | ok a =>
        rw [hh] at hf0
        simp [HandlerOutcome.isFail] at hf0
      | timeout =>
        simp [execute_with_retries_aux, hh, HandlerOutcome.asError]
      | raises e =>
        simp [execute_with_retries_aux, hh, HandlerOutcome.asError]
    · have htail := ih (start + 1) (some ((handler start).asError)) (by omega)
        (fun i hi => by
          have := hfail (i + 1) (by omega)
          rwa [show start + (i + 1) = start + 1 + i from by omega] at this)
      rw [show start + 1 + (m - 1) = start + (m + 1 - 1) from by omega] at htail
      cases hh : handler start with
      | ok a =>
        rw [hh] at hf0
        simp [HandlerOutcome.isFail] at hf0
      | timeout =>
        rw [hh] at htail
        simp [execute_with_retries_aux, hh, hm, HandlerOutcome.asError] at htail ⊢
        exact htail
      | raises e =>
        rw [hh] at htail
        simp [execute_with_retries_aux, hh, hm, HandlerOutcome.asError] at htail ⊢
        exact htail

theorem execute_aux_sleeps {A : Type} (handler : Nat → HandlerOutcome A) :
    ∀ (n start : Nat) (last : Option RouterError) (j d : Nat),
    (execute_with_retries_aux handler start n last).sleeps[j]? = some d →
    (handler (start + j)).isFail = true ∧
    (handler (start + j) = .timeout → d = 2 ^ (start + j)) ∧
    (∀ e, handler (start + j) = .raises e → d = 1) := by
  intro n
  induction n with
  | zero =>
    intro start last j d hj
    simp [execute_with_retries_aux] at hj
  | succ m ih =>
    intro start last j d hj
    by_cases hm : m = 0
    · subst hm
      exfalso
      cases hh : handler start <;>
        simp [execute_with_retries_aux, hh] at hj
    · cases hh : handler start with
      | ok a => simp [execute_with_retries_aux, hh] at hj
      | timeout =>
        simp [execute_with_retries_aux, hh, hm] at hj
        cases j with
        | zero =>
          simp at hj
          refine ⟨by simp [hh, HandlerOutcome.isFail],
            fun _ => by rw [show start + 0 = start from rfl]; exact hj.symm,
            fun e he => ?_⟩
          rw [show start + 0 = start from rfl, hh] at he
          exact absurd he (by simp)
        | succ j =>
          simp at hj
          have := ih (start + 1) (some .handlerTimeout) j d hj
          rwa [show start + 1 + j = start + (j + 1) from by omega] at this
      | raises e0 =>
        simp [execute_with_retries_aux, hh, hm] at hj
        cases j with
        | zero =>
          simp at hj
          refine ⟨by simp [hh, HandlerOutcome.isFail], fun ht => ?_,
            fun e he => hj.symm⟩
          rw [show start + 0 = start from rfl, hh] at ht
          exact absurd ht (by simp)
        | succ j =>
          simp at hj
          have := ih (start + 1) (some (.handlerRaised e0)) j d hj
          rwa [show start + 1 + j = start + (j + 1) from by omega] at this

theorem find_first_match {A : Type} (context : RequestContext) :
    ∀ (pre : List (RouteRule A)) (r : RouteRule A) (post : List (RouteRule A)),
    (∀ r2 ∈ pre, r2.condition context ≠ .ok true) →
    r.condition context = .ok true →
    find_matching_route (pre ++ r :: post) context = some r := by
  intro pre
  induction pre with
  | nil =>
    intro r post _ hr
    simp [find_matching_route, hr]
  | cons hd tl ih =>
    intro r post hpre hr
    have hhd : hd.condition context ≠ .ok true := hpre hd (by simp)
    have htl := ih r post (fun r2 h2 => hpre r2 (by simp [h2])) hr
    cases hc : hd.condition context with
    | ok b =>
      cases b with
      | true => exact absurd hc hhd
      | false => simpa [find_matching_route, hc] using htl
    | error e => simpa [find_matching_route, hc] using htl

theorem find_no_match {A : Type} (context : RequestContext) :
    ∀ (routes : List (RouteRule A)),
    (∀ r ∈ routes, r.condition context ≠ .ok true) →
    find_matching_route routes context = none := by
  intro routes
  induction routes with
  | nil => intro _; rfl
  | cons hd tl ih =>
    intro hall
    have hhd : hd.condition context ≠ .ok true := hall hd (by simp)
    have htl := ih (fun r h => hall r (by simp [h]))
    cases hc : hd.condition context with
    | ok b =>
      cases b with
      | true => exact absurd hc hhd
      | false => simpa [find_matching_route, hc] using htl
    | error e => simpa [find_matching_route, hc] using htl

/-- C1.  Rule matching selects the first rule in definition order whose
predicate evaluates to true; raising predicates (`.error`) and false
predicates are both skipped, so evaluation continues with subsequent
rules.  When no rule matches, `route_request` propagates the no-route
error (`ValueError("No route found ...")`, the spec's RouteNotFound) and
invokes no handler at all. -/
theorem first_match_wins {A : Type} (routes pre post : List (RouteRule A))
    (r : RouteRule A) (handlers : String → Option (Nat → HandlerOutcome A))
    (rl : RateLimiter) (stats : RequestStats) (context : RequestContext)
    (ho : Option (Nat → HandlerOutcome A)) (now : Int) (elapsed : ℚ) :
    ((∀ r2 ∈ pre, r2.condition context ≠ .ok true) →
      r.condition context = .ok true →
      find_matching_route (pre ++ r :: post) context = some r) ∧
    ((∀ r2 ∈ routes, r2.condition context ≠ .ok true) →
      (route_request routes handlers rl stats context ho now elapsed).result
          = .error (.noRouteFound context.request_type) ∧
      (route_request routes handlers rl stats context ho now
          elapsed).invocations = 0) := by
  constructor
  · exact fun hpre hr => find_first_match context pre r post hpre hr
  · intro hall
    have hnone := find_no_match context routes hall
    constructor <;>
      simp [route_request, route_request_core, hnone]

/-- Rules used by the C1 witness: one whose predicate raises, one whose
predicate is false, one matching CHAT requests, and a later rule that
would also match. -/
def ruleRaises : RouteRule Nat :=
  { name := "raising", condition := fun _ => .error (), handler := "h0" }

/-- See `ruleRaises`. -/
def ruleFalse : RouteRule Nat :=
  { name := "nonmatching", condition := fun _ => .ok false, handler := "h1" }

/-- See `ruleRaises`. -/
def ruleChat : RouteRule Nat :=
  { name := "chat_requests",
    condition := fun ctx => .ok (decide (ctx.request_type = RequestType.chat)),
    handler := "handle_chat" }

/-- See `ruleRaises`. -/
def ruleLater : RouteRule Nat :=
  { name := "catch_all", condition := fun _ => .ok true, handler := "h3" }

/-- Witness for C1: with a raising rule and a false rule before the CHAT
rule and a catch-all after it, matching a CHAT context selects the CHAT
rule; on an empty rule list `route_request` reports the no-route error
having invoked no handler. -/
theorem first_match_wins_witness :
    find_matching_route ([ruleRaises, ruleFalse] ++ ruleChat :: [ruleLater])
        ctxNormal = some ruleChat ∧
    (route_request ([] : List (RouteRule Nat)) (fun _ => none) ⟨[]⟩
        RequestStats.init ctxNormal none 0 0).result
      = .error (.noRouteFound ctxNormal.request_type) ∧
    (route_request ([] : List (RouteRule Nat)) (fun _ => none) ⟨[]⟩
        RequestStats.init ctxNormal none 0 0).invocations = 0 :=
  ⟨(first_match_wins ([] : List (RouteRule Nat)) [ruleRaises, ruleFalse]
      [ruleLater] ruleChat (fun _ => none) ⟨[]⟩ RequestStats.init ctxNormal
      none 0 0).1
    (by
      intro r2 h2
      rcases List.mem_cons.mp h2 with rfl | h2
      · simp [ruleRaises]
      · rcases List.mem_cons.mp h2 with rfl | h2
        · simp [ruleFalse]
        · exact absurd h2 (List.not_mem_nil r2))
    rfl,
   (first_match_wins ([] : List (RouteRule Nat)) [] [] ruleChat
      (fun _ => none) ⟨[]⟩ RequestStats.init ctxNormal none 0 0).2
    (fun r2 h2 => absurd h2 (List.not_mem_nil r2))⟩

/-- C2 as amended.  A handler failing its first `k < attempts` invocations
and succeeding on invocation `k + 1` makes the retried execution return
that success; a handler failing all `attempts` invocations makes it
propagate the final failure itself (`raise last_exception`) — the last
recorded timeout or handler exception, with no wrapper around it. -/
theorem retry_semantics {A : Type} (handler : Nat → HandlerOutcome A)
    (n k : Nat) (v : A) :
    (k < n → (∀ i, i < k → (handler i).isFail = true) → handler k = .ok v →
      (execute_with_retries handler n).result = .ok v) ∧
    (0 < n → (∀ i, i < n → (handler i).isFail = true) →
      (execute_with_retries handler n).result
        = .error ((handler (n - 1)).asError)) := by
  constructor
  · intro hkn hfail hok
    exact execute_aux_ok handler v k 0 n none hkn
      (by simpa using hfail) (by simpa using hok)
  · intro hn hfail
    have := execute_aux_exhaust handler n 0 none hn (by simpa using hfail)
    simpa using this

/-- Witness for C2: a handler timing out once then returning 42 succeeds
with 42 under 3 attempts; a handler always raising exception 7 makes the
3-attempt execution propagate that exception. -/
theorem retry_semantics_witness :
    (execute_with_retries
        (fun i => if i = 0 then HandlerOutcome.timeout else HandlerOutcome.ok 42)
        3).result = .ok 42 ∧
    (execute_with_retries (fun _ => (HandlerOutcome.raises 7 : HandlerOutcome Nat))
        3).result
      = .error (((fun _ => (HandlerOutcome.raises 7 : HandlerOutcome Nat))
          (3 - 1)).asError) :=
  ⟨(retry_semantics _ 3 1 42).1 (by omega)
      (fun i hi => by
        have : i = 0 := by omega
        subst this
        rfl)
      rfl,
   (retry_semantics (fun _ => (HandlerOutcome.raises 7 : HandlerOutcome Nat))
      3 0 0).2 (by omega) (fun i _ => rfl)⟩

/-- C2 counterexample.  When the handler fails all 3 attempts by raising
exception 7, the error propagated out of `_execute_with_retries` is that
final handler exception itself (`raise last_exception`), not a distinct
RetriesExhausted exception wrapping it — no such exception class exists in
the code. -/
theorem retry_unwrapped_counterexample :
    (execute_with_retries (fun _ => (HandlerOutcome.raises 7 : HandlerOutcome Nat))
        3).result = Except.error (RouterError.handlerRaised 7) := rfl

/-- C7 as amended.  Each recorded backoff sleep follows a failed,
non-final attempt; after a timeout on attempt `j` the backoff is
`2 ^ j` seconds, but after a handler-raised error it is the constant
1 second (not `2 ^ j` as claimed). -/
theorem backoff_schedule {A : Type} (handler : Nat → HandlerOutcome A)
    (n j d : Nat)
    (hj : (execute_with_retries handler n).sleeps[j]? = some d) :
    (handler j).isFail = true ∧
    (handler j = .timeout → d = 2 ^ j) ∧
    (∀ e, handler j = .raises e → d = 1) := by
  have := execute_aux_sleeps handler n 0 none j d hj
  simpa using this

/-- Witness for C7: a handler that always times out under 3 attempts
sleeps 2 seconds after its second attempt (index 1). -/
theorem backoff_schedule_witness : (2 : Nat) = 2 ^ 1 :=
  (backoff_schedule (fun _ => (HandlerOutcome.timeout : HandlerOutcome Nat))
    3 1 2 rfl).2.1 rfl

/-- C7 counterexample.  A handler that raises (rather than times out) on
every attempt sleeps 1 second after its second failed attempt (index 1),
while the claim's `2 ^ attempt` schedule demands `2 ^ 1 = 2` seconds. -/
theorem backoff_schedule_counterexample :
    (execute_with_retries (fun _ => (HandlerOutcome.raises 5 : HandlerOutcome Nat))
        3).sleeps[1]? = some 1 ∧ (1 : Nat) ≠ 2 ^ 1 :=
  ⟨rfl, by decide⟩

/-- Witness for C3: key `"k"`, empty limiter, calls at times 100, 100, 100
and 200. -/
theorem rate_limit_two_per_window_witness :
    ((⟨[]⟩ : RateLimiter).is_allowed "k" 2 1 100).1 = true ∧
    (((⟨[]⟩ : RateLimiter).is_allowed "k" 2 1 100).2.is_allowed
        "k" 2 1 100).1 = true ∧
    ((((⟨[]⟩ : RateLimiter).is_allowed "k" 2 1 100).2.is_allowed
        "k" 2 1 100).2.is_allowed "k" 2 1 100).1 = false ∧
    (((((⟨[]⟩ : RateLimiter).is_allowed "k" 2 1 100).2.is_allowed
        "k" 2 1 100).2.is_allowed "k" 2 1 100).2).get_remaining
        "k" 2 1 100 = 0 ∧
    ((((((⟨[]⟩ : RateLimiter).is_allowed "k" 2 1 100).2.is_allowed
        "k" 2 1 100).2.is_allowed "k" 2 1 100).2).is_allowed
        "k" 2 1 200).1 = true :=
  rate_limit_two_per_window ⟨[]⟩ "k" 100 100 100 200 rfl (by decide)
    (by decide) (by decide) (by decide)

theorem update_response_time_stats_fields (stats : RequestStats) (e : ℚ) :
    (update_response_time_stats stats e).total_requests = stats.total_requests ∧
    (update_response_time_stats stats e).successful_requests
      = stats.successful_requests ∧
    (update_response_time_stats stats e).failed_requests
      = stats.failed_requests := by
  simp only [update_response_time_stats]
  split <;> simp

theorem update_response_time_stats_avg (stats : RequestStats) (e : ℚ)
    (h : 0 < stats.successful_requests + stats.failed_requests) :
    (update_response_time_stats stats e).average_response_time
      = (stats.average_response_time
          * (((stats.successful_requests + stats.failed_requests : ℕ) : ℚ) - 1)
          + e)
        / ((stats.successful_requests + stats.failed_requests : ℕ) : ℚ) := by
  simp only [update_response_time_stats]
  simp [h]

/-- C8.  Every `route_request` call, on every outcome, updates the stats
carried alongside the propagated result: the total counter is bumped once,
exactly one of the success/failure counters is bumped once (success on an
`ok` result, failure on any propagated error), and the running average is
recomputed in the `finally` block as `(avg * (n - 1) + elapsed) / n` with
`n` the post-increment total of successes plus failures. -/
theorem stats_updated_every_call {A : Type} (routes : List (RouteRule A))
    (handlers : String → Option (Nat → HandlerOutcome A)) (rl : RateLimiter)
    (stats : RequestStats) (context : RequestContext)
    (ho : Option (Nat → HandlerOutcome A)) (now : Int) (elapsed : ℚ) :
    (route_request routes handlers rl stats context ho now
        elapsed).stats.total_requests = stats.total_requests + 1 ∧
    (route_request routes handlers rl stats context ho now
          elapsed).stats.successful_requests
        + (route_request routes handlers rl stats context ho now
            elapsed).stats.failed_requests
      = stats.successful_requests + stats.failed_requests + 1 ∧
    (∀ a : A, (route_request routes handlers rl stats context ho now
          elapsed).result = .ok a →
      (route_request routes handlers rl stats context ho now
          elapsed).stats.successful_requests = stats.successful_requests + 1 ∧
      (route_request routes handlers rl stats context ho now
          elapsed).stats.failed_requests = stats.failed_requests) ∧
    (∀ e : RouterError, (route_request routes handlers rl stats context ho now
          elapsed).result = .error e →
      (route_request routes handlers rl stats context ho now
          elapsed).stats.failed_requests = stats.failed_requests + 1 ∧
      (route_request routes handlers rl stats context ho now
          elapsed).stats.successful_requests = stats.successful_requests) ∧
    (route_request routes handlers rl stats context ho now
        elapsed).stats.average_response_time
      = (stats.average_response_time
          * (((stats.successful_requests + stats.failed_requests + 1 : ℕ) : ℚ)
              - 1)
          + elapsed)
        / ((stats.successful_requests + stats.failed_requests + 1 : ℕ) : ℚ) := by
  cases hc : (route_request_core routes handlers rl context ho now).1 with
  | ok a0 =>
    have hres : (route_request routes handlers rl stats context ho now
        elapsed).result = .ok a0 := by
      simp [route_request, hc]
    have hstats : (route_request routes handlers rl stats context ho now
          elapsed).stats
        = update_response_time_stats
            { stats with
              total_requests := stats.total_requests + 1
              requests_by_type := fun t =>
                if t = context.request_type then stats.requests_by_type t + 1
                else stats.requests_by_type t
              requests_by_priority := fun p =>
                if p = context.priority then stats.requests_by_priority p + 1
                else stats.requests_by_priority p
              successful_requests := stats.successful_requests + 1 } elapsed := by
      simp [route_request, hc]
    have hpos : 0 < stats.successful_requests + 1 + stats.failed_requests := by
      omega
    have hkey : stats.successful_requests + 1 + stats.failed_requests
        = stats.successful_requests + stats.failed_requests + 1 := by omega
    refine ⟨?_, ?_, ?_, ?_, ?_⟩
    · rw [hstats, (update_response_time_stats_fields _ _).1]
    · rw [hstats, (update_response_time_stats_fields _ _).2.1,
        (update_response_time_stats_fields _ _).2.2]
      dsimp only
      omega
    · intro a _
      rw [hstats, (update_response_time_stats_fields _ _).2.1,
        (update_response_time_stats_fields _ _).2.2]
      exact ⟨rfl, rfl⟩
    · intro e he
      rw [hres] at he
      exact absurd he (by simp)
    · rw [hstats, update_response_time_stats_avg _ _ hpos]
      rw [show ({ stats with
              total_requests := stats.total_requests + 1
              requests_by_type := fun t =>
                if t = context.request_type then stats.requests_by_type t + 1
                else stats.requests_by_type t
              requests_by_priority := fun p =>
                if p = context.priority then stats.requests_by_priority p + 1
                else stats.requests_by_priority p
              successful_requests := stats.successful_requests + 1 } :
            RequestStats).successful_requests
          + ({ stats with
              total_requests := stats.total_requests + 1
              requests_by_type := fun t =>
                if t = context.request_type then stats.requests_by_type t + 1
                else stats.requests_by_type t
              requests_by_priority := fun p =>
                if p = context.priority then stats.requests_by_priority p + 1
                else stats.requests_by_priority p
              successful_requests := stats.successful_requests + 1 } :
            RequestStats).failed_requests
          = stats.successful_requests + stats.failed_requests + 1 from hkey]
  | error e0 =>
    have hres : (route_request routes handlers rl stats context ho now
        elapsed).result = .error e0 := by
      simp [route_request, hc]
    have hstats : (route_request routes handlers rl stats context ho now
          elapsed).stats
        = update_response_time_stats
            { stats with
              total_requests := stats.total_requests + 1
              requests_by_type := fun t =>
                if t = context.request_type then stats.requests_by_type t + 1
                else stats.requests_by_type t
              requests_by_priority := fun p =>
                if p = context.priority then stats.requests_by_priority p + 1
                else stats.requests_by_priority p
              failed_requests := stats.failed_requests + 1 } elapsed := by
      simp [route_request, hc]
    have hpos : 0 < stats.successful_requests + (stats.failed_requests + 1) := by
      omega
    have hkey : stats.successful_requests + (stats.failed_requests + 1)
        = stats.successful_requests + stats.failed_requests + 1 := by omega
    refine ⟨?_, ?_, ?_, ?_, ?_⟩
    · rw [hstats, (update_response_time_stats_fields _ _).1]
    · rw [hstats, (update_response_time_stats_fields _ _).2.1,
        (update_response_time_stats_fields _ _).2.2]
      dsimp only
      omega
    · intro a ha
      rw [hres] at ha
      exact absurd ha (by simp)
    · intro e _
      rw [hstats, (update_response_time_stats_fields _ _).2.1,
        (update_response_time_stats_fields _ _).2.2]
      exact ⟨rfl, rfl⟩
    · rw [hstats, update_response_time_stats_avg _ _ hpos]
      rw [show ({ stats with
              total_requests := stats.total_requests + 1
              requests_by_type := fun t =>
                if t = context.request_type then stats.requests_by_type t + 1
                else stats.requests_by_type t
              requests_by_priority := fun p =>
                if p = context.priority then stats.requests_by_priority p + 1
                else stats.requests_by_priority p
              failed_requests := stats.failed_requests + 1 } :
            RequestStats).successful_requests
          + ({ stats with
              total_requests := stats.total_requests + 1
              requests_by_type := fun t =>
                if t = context.request_type then stats.requests_by_type t + 1
                else stats.requests_by_type t
              requests_by_priority := fun p =>
                if p = context.priority then stats.requests_by_priority p + 1
                else stats.requests_by_priority p
              failed_requests := stats.failed_requests + 1 } :
            RequestStats).failed_requests
          = stats.successful_requests + stats.failed_requests + 1 from hkey]

/-- Witness for C8: a call on an empty rule list (which fails with the
no-route error) starting from fresh stats and elapsed time 2. -/
theorem stats_updated_every_call_witness :
    (route_request ([] : List (RouteRule Nat)) (fun _ => none) ⟨[]⟩
        RequestStats.init ctxNormal none 0 2).stats.total_requests
      = RequestStats.init.total_requests + 1 ∧
    (route_request ([] : List (RouteRule Nat)) (fun _ => none) ⟨[]⟩
        RequestStats.init ctxNormal none 0 2).stats.failed_requests
      = RequestStats.init.failed_requests + 1 ∧
    (route_request ([] : List (RouteRule Nat)) (fun _ => none) ⟨[]⟩
        RequestStats.init ctxNormal none 0 2).stats.successful_requests
      = RequestStats.init.successful_requests ∧
    (route_request ([] : List (RouteRule Nat)) (fun _ => none) ⟨[]⟩
        RequestStats.init ctxNormal none 0 2).stats.average_response_time
      = (RequestStats.init.average_response_time
          * (((RequestStats.init.successful_requests
                + RequestStats.init.failed_requests + 1 : ℕ) : ℚ) - 1) + 2)
        / ((RequestStats.init.successful_requests
            + RequestStats.init.failed_requests + 1 : ℕ) : ℚ) :=
  ⟨(stats_updated_every_call ([] : List (RouteRule Nat)) (fun _ => none) ⟨[]⟩
      RequestStats.init ctxNormal none 0 2).1,
   ((stats_updated_every_call ([] : List (RouteRule Nat)) (fun _ => none) ⟨[]⟩
      RequestStats.init ctxNormal none 0 2).2.2.2.1
      (.noRouteFound .chat) rfl).1,
   ((stats_updated_every_call ([] : List (RouteRule Nat)) (fun _ => none) ⟨[]⟩
      RequestStats.init ctxNormal none 0 2).2.2.2.1
      (.noRouteFound .chat) rfl).2,
   (stats_updated_every_call ([] : List (RouteRule Nat)) (fun _ => none) ⟨[]⟩
      RequestStats.init ctxNormal none 0 2).2.2.2.2⟩

end GlyphMind
